import Mathlib

/-!
# Verification of the Kennzahlenauswertung reshape-and-aggregate pipeline

Shallow embedding of `src/kennzahlen.py`: an Excel sheet is read as an untyped
grid (column A = dates, row 2 = metric headers, data from row 3), reshaped into
a long-format record set, aggregated per metric by weekday, and packaged into an
HTML report with headline KPIs.

Modelling choices:
* A spreadsheet cell is abstracted by how each pandas coercion used in the
  program behaves on it: `pd.isna`, `pd.to_datetime(..., errors := coerce)`
  (as an optional day ordinal, days since 1970-01-01), `pd.to_numeric`
  (as an optional rational) and `str(...).strip()`.
* Dates are day ordinals (days since 1970-01-01, which was a Thursday);
  `pandas.Timestamp.weekday` (Monday = 0) is `(d + 3) % 7`, and
  `strftime("%d.%m.%Y")` is realised through the standard civil-from-days
  calendar algorithm.
* The wall clock read by `datetime.now()` inside `build_html_report` is made an
  explicit `now : String` parameter: it is the only effect of the run.
* External renderers that the spec declares out of scope (plotly
  `fig.to_html`, pandas `DataFrame.to_html`) are modelled as concrete
  deterministic functions of their inputs.
* The un-handled `AttributeError` the script raises at the KPI stage when the
  numeric coercion leaves zero records (`NaN.strftime`) is modelled by the
  distinguished error outcome `RunError.kpiCrash`.
-/

set_option autoImplicit false

namespace Kennzahlen

/-- A spreadsheet cell, abstracted by the results of every pandas operation the
program applies to cells: `isna` models `pd.isna`, `asDate` models
`pd.to_datetime(cell, errors="coerce")` (`none` = `NaT`), `asNum` models
`pd.to_numeric(cell, errors="coerce")` (`none` = `NaN`), and `strStrip` models
`str(cell).strip()`. -/
structure Cell where
  isna : Bool
  asDate : Option Nat
  asNum : Option ℚ
  strStrip : String
deriving DecidableEq

/-- The missing/NaN cell: `pd.isna` holds, both coercions fail. -/
def naCell : Cell := { isna := true, asDate := none, asNum := none, strStrip := "nan" }

/-- The raw grid `df_raw` produced by `pd.read_excel(..., header=None)`:
a list of rows of cells. -/
def Grid : Type := List (List Cell)

/-- Number of rows of the grid (`df_raw.shape[0]`). -/
def nrows (g : Grid) : Nat := List.length g

/-- Number of columns of the grid (`df_raw.shape[1]`); pandas pads ragged rows
with NaN, so the width is the maximum row length. -/
def ncols (g : Grid) : Nat := List.foldr (fun row acc => max row.length acc) 0 g

/-- Cell lookup `df_raw.iloc[r, c]`; positions outside a (possibly ragged) row
are the NaN padding pandas inserts. -/
def cellAt (g : Grid) (r c : Nat) : Cell :=
  (((List.get? g r).getD []).get? c).getD naCell

/-- `weekday_order = ["Mo", "Di", "Mi", "Do", "Fr", "Sa", "So"]` (line 171). -/
def weekdayOrder : List String := ["Mo", "Di", "Mi", "Do", "Fr", "Sa", "So"]

/-- The fixed dict `{0: "Mo", 1: "Di", 2: "Mi", 3: "Do", 4: "Fr", 5: "Sa", 6: "So"}`
used by `wd.map({...})` (line 168).  A key outside 0..6 would give NaN under
`Series.map`; that branch is unreachable because weekday indices are `% 7`. -/
def wochentagMap (n : Nat) : String :=
  match n with
  | 0 => "Mo"
  | 1 => "Di"
  | 2 => "Mi"
  | 3 => "Do"
  | 4 => "Fr"
  | 5 => "Sa"
  | 6 => "So"
  | _ => "NaN"

/-- `pandas .dt.weekday` (Monday = 0) on a day ordinal: 1970-01-01 (ordinal 0)
was a Thursday, i.e. weekday index 3.  Depends on the date alone — no locale,
timezone or runtime configuration enters. -/
def pdWeekday (d : Nat) : Nat := (d + 3) % 7

/-- Civil date (year, month, day) of a day ordinal (days since 1970-01-01),
by the standard civil-from-days algorithm; models the calendar arithmetic
underlying `Timestamp.strftime`. -/
def civilFromDays (z : Nat) : Nat × Nat × Nat :=
  let zd := z + 719468
  let era := zd / 146097
  let doe := zd % 146097
  let yoe := (doe - doe / 1460 + doe / 36524 - doe / 146096) / 365
  let doy := doe - (365 * yoe + yoe / 4 - yoe / 100)
  let mp := (5 * doy + 2) / 153
  let d := doy - (153 * mp + 2) / 5 + 1
  let m := if mp < 10 then mp + 3 else mp - 9
  let y := yoe + era * 400
  (if m ≤ 2 then y + 1 else y, m, d)

/-- Zero-padding to two digits, as `%d` / `%m` do. -/
def pad2 (n : Nat) : String := if n < 10 then "0" ++ toString n else toString n

/-- `Timestamp.strftime("%d.%m.%Y")` on a day ordinal. -/
def formatDMY (z : Nat) : String :=
  let c := civilFromDays z
  pad2 c.2.2 ++ "." ++ pad2 c.2.1 ++ "." ++ toString c.1

/-- Structural constants of the sheet (lines 155-157): `DATE_COL = 0`,
`HEADER_ROW = 1`, `DATA_START = 2` — the data region is every row from
index 2 on. -/
def rowRange (g : Grid) : List Nat := List.range' 2 (nrows g - 2)

/-- `df_dates` (lines 162-168): parse the date column of the data region with
`errors="coerce"`, keep the rows whose date is not NaT, and attach the weekday
label `wochentagMap` of the parsed date.  Each entry is (parsed date, label),
positionally. -/
def dfDates (g : Grid) : List (Nat × String) :=
  (rowRange g).filterMap fun i =>
    ((cellAt g i 0).asDate).map fun d => (d, wochentagMap (pdWeekday d))

/-- `valid_idx` (line 177): the original row indices of the data region whose
date cell parses. -/
def validIdx (g : Grid) : List Nat :=
  (rowRange g).filter fun i => ((cellAt g i 0).asDate).isSome

/-- `metrics` (lines 182-190): scan row 2 from column B on; skip NaN headers
and headers that strip to the empty string; keep (column index, stripped name)
in column order (dict insertion order). -/
def metricsOf (g : Grid) : List (Nat × String) :=
  (List.range' 1 (ncols g - 1)).filterMap fun col =>
    let name := cellAt g 1 col
    if name.isna then none
    else if name.strStrip = "" then none
    else some (col, name.strStrip)

/-- A long-format row as first built (lines 211-216), before the numeric
coercion of `Wert`: the value still is the raw cell. -/
structure RawRecord where
  datum : Nat
  wochentag : String
  art : String
  wert : Cell
deriving DecidableEq

/-- The body of the inner loop of the record builder (lines 205-216): skip the
cell if `pd.isna(val)`; otherwise look the row up positionally,
`pos = list(valid_idx).index(i)`, in `df_dates` and emit the record.
`df_dates.iloc[pos]` cannot fail for `i ∈ valid_idx`; the `none` fallback of
the lookup is unreachable. -/
def rowRecord (g : Grid) (col : Nat) (name : String) (i : Nat) : Option RawRecord :=
  let val := cellAt g i col
  if val.isna then none
  else
    match (dfDates g).get? ((validIdx g).indexOf i) with
    | some dw => some { datum := dw.1, wochentag := dw.2, art := name, wert := val }
    | none => none

/-- `records` (lines 202-216): for every metric column in order, run over the
rows with a valid date (`df_raw.loc[valid_idx, col]` preserves that order) and
emit one raw record per non-NaN cell. -/
def rawRecords (g : Grid) : List RawRecord :=
  (metricsOf g).flatMap fun cm => (validIdx g).filterMap (rowRecord g cm.1 cm.2)

/-- A finished long-format record after `pd.to_numeric` (lines 224-225):
the value is a genuine (finite) number. -/
structure Record where
  datum : Nat
  wochentag : String
  art : String
  wert : ℚ
deriving DecidableEq

/-- `long_df` after lines 224-225: coerce `Wert` with `errors="coerce"` and
drop the rows whose coercion failed. -/
def finalRecords (g : Grid) : List Record :=
  (rawRecords g).filterMap fun r =>
    (r.wert.asNum).map fun q =>
      ({ datum := r.datum, wochentag := r.wochentag, art := r.art, wert := q } : Record)

/-- `Series.nunique()`: number of distinct values. -/
def distinctCount (l : List String) : Nat := l.dedup.length

/-- The KPI dict (lines 289-294, displayed identically at 230-236): range start
and end from the min/max date of the full `long_df`, distinct metric count, and
total record count — all over the unfiltered record set. -/
def kpisOf (g : Grid) (dmin dmax : Nat) : List (String × String) :=
  [("Zeitraum Start", formatDMY dmin),
   ("Zeitraum Ende", formatDMY dmax),
   ("Auswertungsarten", toString (distinctCount ((finalRecords g).map Record.art))),
   ("Datenpunkte", toString (finalRecords g).length)]

/-- `filtered` (line 248): restrict `long_df` to the selected metric names via
`isin(sel_metrics)`. -/
def filteredOf (g : Grid) (sel : List String) : List Record :=
  (finalRecords g).filter fun r => sel.contains r.art

/-- `agg` (lines 262-268) on the per-metric subset `sub`: `long_df` holds plain
string weekday labels (scalar extraction from the categorical series yields
strings), so `groupby("Wochentag")["Wert"].sum()` keys on the observed labels,
`.reindex(weekday_order)` puts them into canonical order inserting NaN for
absent weekdays, and `.dropna()` removes exactly those — one (weekday, sum)
entry per weekday that has at least one record. -/
def aggWochentag (sub : List Record) : List (String × ℚ) :=
  weekdayOrder.filterMap fun w =>
    if ((sub.filter fun r => r.wochentag = w).map Record.wert).isEmpty then none
    else some (w, ((sub.filter fun r => r.wochentag = w).map Record.wert).sum)

/-- A plotly bar figure `px.bar(agg, x="Wochentag", y="Wert", title=...,
labels={"Wert": metric})`, abstracted to the data it is built from. -/
structure Fig where
  data : List (String × ℚ)
  title : String
  label : String
deriving DecidableEq

/-- `px.bar` (lines 270-276), keeping the aggregate data, the title and the
y-axis relabelling. -/
def pxBar (data : List (String × ℚ)) (t lbl : String) : Fig :=
  { data := data, title := t, label := lbl }

/-- Decimal rendering of a rational, used by the modelled renderers. -/
def ratStr (q : ℚ) : String := toString q.num ++ "/" ++ toString q.den

/-- Models `fig_to_html` (lines 24-26), i.e. plotly
`fig.to_html(full_html=False, include_plotlyjs="cdn")`, as a deterministic
rendering of the figure data; the charting library internals are out of scope
per the spec. -/
def figToHtml (f : Fig) : String :=
  "<div class=\"plotly-graph-div\">" ++ f.title ++ " [" ++ f.label ++ "] "
    ++ f.data.foldl (fun acc wv => acc ++ wv.1 ++ "=" ++ ratStr wv.2 ++ ";") ""
    ++ "</div>"

/-- `figs` (lines 255-278): for each selected metric, take its subset of the
filtered table, skip it when empty, otherwise build the weekday aggregate and
the bar figure. -/
def figsOf (g : Grid) (sel : List String) : List (String × Fig) :=
  sel.filterMap fun m =>
    let sub := (filteredOf g sel).filter fun r => r.art = m
    if sub.isEmpty then none
    else some (m, pxBar (aggWochentag sub) (m ++ " pro Wochentag (Summe)") m)

/-- `charts_html` (lines 296-298): pair each figure with its headline and
render it. -/
def chartsHtmlOf (figs : List (String × Fig)) : List (String × String) :=
  figs.map fun mf => (mf.1 ++ " pro Wochentag (Summe)", figToHtml mf.2)

/-- The CSS constant of `build_html_report` (lines 35-55). -/
def cssStr : String :=
  ":root\x7b--bg:#0f1115;--card:#171a21;--muted:#aab2c0;--text:#f2f4f8;--accent:#4aa3ff;\x7d\n"
  ++ "body\x7bmargin:0;font-family:Inter,system-ui,-apple-system,Segoe UI,Roboto,Arial,sans-serif;background:var(--bg);color:var(--text);\x7d\n"
  ++ ".wrap\x7bmax-width:1200px;margin:0 auto;padding:28px;\x7d\n"
  ++ "h1\x7bmargin:0 0 6px 0;font-size:28px;letter-spacing:.2px;\x7d\n"
  ++ ".sub\x7bcolor:var(--muted);margin-bottom:18px;\x7d\n"
  ++ ".grid\x7bdisplay:grid;grid-template-columns:repeat(4,1fr);gap:12px;margin:14px 0 18px;\x7d\n"
  ++ ".card\x7bbackground:var(--card);border:1px solid rgba(255,255,255,.07);border-radius:14px;padding:14px 14px 12px;\x7d\n"
  ++ ".kpi-label\x7bcolor:var(--muted);font-size:12px;margin-bottom:6px;\x7d\n"
  ++ ".kpi-val\x7bfont-size:20px;font-weight:700;\x7d\n"
  ++ ".section\x7bmargin-top:18px;\x7d\n"
  ++ ".section h2\x7bfont-size:18px;margin:0 0 10px 0;\x7d\n"
  ++ ".chart\x7bbackground:var(--card);border:1px solid rgba(255,255,255,.07);border-radius:14px;padding:10px;margin-bottom:12px;\x7d\n"
  ++ "table\x7bwidth:100%;border-collapse:collapse;background:var(--card);border:1px solid rgba(255,255,255,.07);border-radius:14px;overflow:hidden;\x7d\n"
  ++ "th,td\x7bpadding:10px 10px;border-bottom:1px solid rgba(255,255,255,.06);font-size:13px;\x7d\n"
  ++ "th\x7bcolor:var(--muted);text-align:left;font-weight:600;\x7d\n"
  ++ "tr:last-child td\x7bborder-bottom:none;\x7d\n"
  ++ ".pill\x7bdisplay:inline-block;padding:3px 8px;border-radius:999px;background:rgba(74,163,255,.15);border:1px solid rgba(74,163,255,.25);color:#cfe7ff;font-size:12px;\x7d\n"
  ++ "@media (max-width:1000px)\x7b.grid\x7bgrid-template-columns:repeat(2,1fr);\x7d\x7d\n"
  ++ "@media (max-width:560px)\x7b.grid\x7bgrid-template-columns:1fr;\x7d\x7d\n"

/-- The KPI card loop of `build_html_report` (lines 58-65). -/
def kpiCards (kpis : List (String × String)) : String :=
  kpis.foldl
    (fun acc lv =>
      acc ++ "\n        <div class=\"card\">\n            <div class=\"kpi-label\">"
        ++ lv.1 ++ "</div>\n            <div class=\"kpi-val\">" ++ lv.2
        ++ "</div>\n        </div>\n        ")
    ""

/-- The chart section loop of `build_html_report` (lines 67-74). -/
def chartsBlock (charts : List (String × String)) : String :=
  charts.foldl
    (fun acc hc =>
      acc ++ "\n        <div class=\"section\">\n            <h2>" ++ hc.1
        ++ "</h2>\n            <div class=\"chart\">" ++ hc.2
        ++ "</div>\n        </div>\n        ")
    ""

/-- The preview truncation of `build_html_report` (lines 76-78): copy the
table and keep only the first 200 rows when it is longer than 200. -/
def previewTable (tbl : List Record) : List Record :=
  if tbl.length > 200 then tbl.take 200 else tbl

/-- Models `DataFrame.to_html(index=False, escape=True)` (line 80) as a
deterministic rendering of the record list; pandas rendering internals are out
of scope per the spec. -/
def dfToHtml (tbl : List Record) : String :=
  "<table border=\"1\" class=\"dataframe\"><thead><tr><th>Datum</th><th>Wochentag</th><th>Auswertungsart</th><th>Wert</th></tr></thead><tbody>"
    ++ tbl.foldl
        (fun acc r =>
          acc ++ "<tr><td>" ++ formatDMY r.datum ++ "</td><td>" ++ r.wochentag
            ++ "</td><td>" ++ r.art ++ "</td><td>" ++ ratStr r.wert ++ "</td></tr>")
        ""
    ++ "</tbody></table>"

/-- The segment of the f-string of lines 82-110 before the interpolated
timestamp: doctype, head with title and style, body heading, up to the opening
of the pill span `Generiert am`. -/
def htmlPre (title : String) : String :=
  "\n    <!doctype html>\n    <html lang=\"de\">\n    <head>\n      <meta charset=\"utf-8\">\n      <meta name=\"viewport\" content=\"width=device-width, initial-scale=1\">\n      <title>"
  ++ title
  ++ "</title>\n      <style>"
  ++ cssStr
  ++ "</style>\n    </head>\n    <body>\n      <div class=\"wrap\">\n        <h1>"
  ++ title
  ++ "</h1>\n        <div class=\"sub\">Generiert am <span class=\"pill\">"

/-- The segment of the f-string between the timestamp and the interpolated
preview table: the KPI grid, the chart sections and the listing heading. -/
def htmlMid (kpis chartsHtml : List (String × String)) : String :=
  "</span></div>\n\n        <div class=\"grid\">\n            "
  ++ kpiCards kpis
  ++ "\n        </div>\n\n        "
  ++ chartsBlock chartsHtml
  ++ "\n\n        <div class=\"section\">\n          <h2>Beispiel-Listing (max. 200 Zeilen)</h2>\n          "

/-- The closing segment of the f-string after the preview table. -/
def htmlSuffix : String :=
  "\n          <div class=\"sub\" style=\"margin-top:8px;\">Hinweis: Im Streamlit-Dashboard kannst du natürlich alles filtern/sehen.</div>\n        </div>\n      </div>\n    </body>\n    </html>\n    "

/-- `build_html_report` (lines 29-111) with the wall clock `datetime.now()`
made an explicit `now` argument — the only non-input it reads.  The HTML is
the f-string of lines 82-110: its literal segments (grouped around the two
interpolations computed inside the function, the timestamp and the truncated
preview table) concatenated with the interpolated values. -/
def buildHtmlReport (title : String) (kpis : List (String × String))
    (chartsHtml : List (String × String)) (tableDf : List Record)
    (now : String) : String :=
  htmlPre title ++ now ++ htmlMid kpis chartsHtml
    ++ dfToHtml (previewTable tableDf) ++ htmlSuffix

/-- The render-ready bundle of one successful run: the KPI dict, the per-metric
figures (`figs`), their rendered fragments (`charts_html`), the filtered table
passed to the report, and the final HTML document. -/
structure Report where
  kpis : List (String × String)
  figs : List (String × Fig)
  chartsHtml : List (String × String)
  tableDf : List Record
  html : String
deriving DecidableEq

/-- The title passed at line 301. -/
def reportTitle : String := "Kennzahlenauswertung – Datum & Auswertungsart"

/-- Assembly of the bundle on the success path (lines 230-305). -/
def mkReport (g : Grid) (sel : List String) (now : String) (dmin dmax : Nat) : Report :=
  { kpis := kpisOf g dmin dmax
    figs := figsOf g sel
    chartsHtml := chartsHtmlOf (figsOf g sel)
    tableDf := filteredOf g sel
    html := buildHtmlReport reportTitle (kpisOf g dmin dmax)
      (chartsHtmlOf (figsOf g sel)) (filteredOf g sel) now }

/-- The fatal outcomes of a run: `noMetrics` is the `st.error`/`st.stop` of
lines 192-194, `emptyResult` the one of lines 219-221, and `kpiCrash` the
un-handled `AttributeError` raised at line 233 (`long_df["Datum"].min()` is
NaN when the numeric coercion dropped every record, and `NaN.strftime` does
not exist) — the run aborts there without any report. -/
inductive RunError where
  | noMetrics
  | emptyResult
  | kpiCrash
deriving DecidableEq

/-- The whole pipeline on one grid: structural extraction, record building,
the emptiness check of line 219 (taken before the numeric coercion), the KPI
computation and the report assembly.  `sel` is the metric selection of the
multiselect widget, `now` the wall clock string. -/
def runPipeline (g : Grid) (sel : List String) (now : String) : Except RunError Report :=
  if (metricsOf g).isEmpty then .error .noMetrics
  else if (rawRecords g).isEmpty then .error .emptyResult
  else
    match ((finalRecords g).map Record.datum).min?,
          ((finalRecords g).map Record.datum).max? with
    | some dmin, some dmax => .ok (mkReport g sel now dmin dmax)
    | _, _ => .error .kpiCrash

/-! ## Concrete test grids

Fixtures used by the witness theorems below. -/

/-- A cell that parses as a date with day ordinal `d` (days since 1970-01-01). -/
def dCell (d : Nat) : Cell := { isna := false, asDate := some d, asNum := none, strStrip := "" }

/-- A numeric cell with value `q`. -/
def numCell (q : ℚ) : Cell := { isna := false, asDate := none, asNum := some q, strStrip := "" }

/-- A non-empty text cell whose content strips to `s` and is neither a date nor
numeric-coercible. -/
def txtCell (s : String) : Cell := { isna := false, asDate := none, asNum := none, strStrip := s }

/-- One metric column "A", one data row dated 2024-01-01 (ordinal 19723, a
Monday) with value 5. -/
def gW : Grid := [[], [naCell, txtCell "A"], [dCell 19723, numCell 5]]

/-- One metric column "A", one data row with a valid date but a non-numeric
text value: the record survives the pre-coercion emptiness check and is then
dropped by `pd.to_numeric`. -/
def gBug : Grid := [[], [naCell, txtCell "A"], [dCell 19723, txtCell "x"]]

/-- Two header cells both strip to the same name "A". -/
def gDup : Grid := [[], [naCell, txtCell "A", txtCell "A"], [dCell 19723, numCell 1, numCell 2]]

/-- Every header cell right of the date column is NaN or strips to "". -/
def gEmptyHdr : Grid :=
  [[], [naCell, { isna := false, asDate := none, asNum := none, strStrip := "" }, naCell],
   [dCell 19723, numCell 1, numCell 2]]

/-- A sample finished record. -/
def recW : Record := { datum := 19723, wochentag := "Mo", art := "A", wert := 5 }

/-- A 201-row table, one row beyond the preview cap. -/
def tblW : List Record := List.replicate 201 recW

/-- The figure the pipeline builds for metric "A" on `gW`. -/
def figW : Fig :=
  pxBar (aggWochentag ((finalRecords gW).filter fun r => r.art = "A"))
    ("A pro Wochentag (Summe)") "A"

/-- Everything in a `Report` except the HTML document (which embeds the
generation timestamp): the KPI dict, the figures, the rendered chart fragments
and the filtered table. -/
def reportSansTime (b : Report) :
    List (String × String) × List (String × Fig) × List (String × String) × List Record :=
  (b.kpis, b.figs, b.chartsHtml, b.tableDf)

/-! ## Helper lemmas -/

/-- The KPI component of the assembled bundle. -/
theorem mkReport_kpis (g : Grid) (sel : List String) (now : String) (dmin dmax : Nat) :
    (mkReport g sel now dmin dmax).kpis = kpisOf g dmin dmax := rfl

/-- The figure component of the assembled bundle. -/
theorem mkReport_figs (g : Grid) (sel : List String) (now : String) (dmin dmax : Nat) :
    (mkReport g sel now dmin dmax).figs = figsOf g sel := rfl

/-- The chart-fragment component of the assembled bundle. -/
theorem mkReport_chartsHtml (g : Grid) (sel : List String) (now : String) (dmin dmax : Nat) :
    (mkReport g sel now dmin dmax).chartsHtml = chartsHtmlOf (figsOf g sel) := rfl

/-- The table component of the assembled bundle. -/
theorem mkReport_tableDf (g : Grid) (sel : List String) (now : String) (dmin dmax : Nat) :
    (mkReport g sel now dmin dmax).tableDf = filteredOf g sel := rfl

/-- Looking up the `filterMap` of a list at the position that `indexOf` finds
in the filter-to-defined sublist recovers the function value: this is the
correctness of the positional re-alignment `pos = list(valid_idx).index(i)`
followed by `df_dates.iloc[pos]`. -/
theorem get_filterMap_indexOf {β : Type} (f : Nat → Option β) (l : List Nat) (a : Nat)
    (ha : a ∈ l.filter fun x => (f x).isSome) :
    (l.filterMap f).get? ((l.filter fun x => (f x).isSome).indexOf a) = f a := by
  induction l with
  | nil => simp at ha
  | cons x xs ih =>
    by_cases hfx : (f x).isSome = true
    · obtain ⟨b, hb⟩ := Option.isSome_iff_exists.mp hfx
      rw [List.filter_cons_of_pos (p := fun x => (f x).isSome) hfx] at ha ⊢
      rw [List.filterMap_cons_some hb]
      by_cases hxa : x = a
      · subst hxa
        rw [List.indexOf_cons_self]
        simpa using hb.symm
      · rw [List.indexOf_cons_ne _ hxa]
        have ha2 : a ∈ xs.filter fun x => (f x).isSome := by
          rcases List.mem_cons.mp ha with h | h
          · exact absurd h.symm hxa
          · exact h
        simpa using ih ha2
    · have hnone : f x = none := Option.not_isSome_iff_eq_none.mp hfx
      rw [List.filter_cons_of_neg (p := fun x => (f x).isSome) (by simpa using hfx)] at ha ⊢
      rw [List.filterMap_cons_none hnone]
      exact ih ha

/-- The positional lookup of a surviving row index in `df_dates` yields exactly
the parsed date and derived weekday label of that row. -/
theorem dfDates_get_indexOf (g : Grid) (i : Nat) (hi : i ∈ validIdx g) :
    ∃ d, (cellAt g i 0).asDate = some d ∧
      (dfDates g).get? ((validIdx g).indexOf i) = some (d, wochentagMap (pdWeekday d)) := by
  have hval : validIdx g = (rowRange g).filter
      fun j => ((((cellAt g j 0).asDate).map
        fun d => (d, wochentagMap (pdWeekday d))).isSome) := by
    unfold validIdx
    apply List.filter_congr
    intro j _
    simp [Option.isSome_map']
  have hsome : ((cellAt g i 0).asDate).isSome := by
    have hm := List.mem_filter.mp (show i ∈ (rowRange g).filter
        (fun j => ((cellAt g j 0).asDate).isSome) from hi)
    simpa using hm.2
  obtain ⟨d, hd⟩ := Option.isSome_iff_exists.mp hsome
  refine ⟨d, hd, ?_⟩
  have hi2 := hi
  rw [hval] at hi2
  have hkey := get_filterMap_indexOf
    (fun j => ((cellAt g j 0).asDate).map fun d => (d, wochentagMap (pdWeekday d)))
    (rowRange g) i hi2
  rw [hval]
  show ((rowRange g).filterMap
      (fun j => ((cellAt g j 0).asDate).map fun d => (d, wochentagMap (pdWeekday d)))).get?
      _ = _
  rw [hkey]
  simp [hd]

/-- Characterisation of the detected metric columns: exactly the columns right
of the date column whose header cell is non-NaN and strips to a non-empty
name. -/
theorem mem_metricsOf {g : Grid} {c : Nat} {s : String} :
    (c, s) ∈ metricsOf g ↔
      1 ≤ c ∧ c < ncols g ∧ (cellAt g 1 c).isna = false ∧
      (cellAt g 1 c).strStrip = s ∧ s ≠ "" := by
  unfold metricsOf
  rw [List.mem_filterMap]
  constructor
  · rintro ⟨col, hcol, heq⟩
    rw [List.mem_range'_1] at hcol
    by_cases h1 : (cellAt g 1 col).isna
    · simp [h1] at heq
    · by_cases h2 : (cellAt g 1 col).strStrip = ""
      · simp [h1, h2] at heq
      · simp only [h1, h2, Bool.false_eq_true, if_false, if_neg, ite_false,
          Option.some.injEq, Prod.mk.injEq] at heq
        obtain ⟨heq1, heq2⟩ := heq
        subst heq1
        subst heq2
        refine ⟨hcol.1, by omega, by simpa using h1, rfl, h2⟩
  · rintro ⟨h1, h2, hna, hs, hne⟩
    refine ⟨c, ?_, ?_⟩
    · rw [List.mem_range'_1]
      omega
    · simp only [hna, hs, hne, Bool.false_eq_true, if_false, ite_false, if_neg]

/-- Characterisation of the raw (pre-coercion) record list: one record per
(metric column, valid-date row) pair whose value cell is not NaN, carrying the
parsed date, its weekday label, the metric name and the raw cell. -/
theorem mem_rawRecords {g : Grid} {r : RawRecord} :
    r ∈ rawRecords g ↔
      ∃ c i, (c, r.art) ∈ metricsOf g ∧ i ∈ validIdx g ∧
        (cellAt g i 0).asDate = some r.datum ∧
        r.wochentag = wochentagMap (pdWeekday r.datum) ∧
        (cellAt g i c).isna = false ∧ r.wert = cellAt g i c := by
  constructor
  · intro hr
    unfold rawRecords at hr
    rw [List.mem_flatMap] at hr
    obtain ⟨cm, hcm, hr⟩ := hr
    rw [List.mem_filterMap] at hr
    obtain ⟨i, hi, hrec⟩ := hr
    obtain ⟨d, hd, hget⟩ := dfDates_get_indexOf g i hi
    unfold rowRecord at hrec
    by_cases hna : (cellAt g i cm.1).isna
    · simp [hna] at hrec
    · simp only [hna, Bool.false_eq_true, if_false, ite_false, if_neg] at hrec
      rw [hget] at hrec
      obtain rfl := Option.some.inj hrec
      exact ⟨cm.1, i, by simpa using hcm, hi, hd, rfl, by simpa using hna, rfl⟩
  · rintro ⟨c, i, hcm, hi, hd, hw, hna, hwert⟩
    unfold rawRecords
    rw [List.mem_flatMap]
    refine ⟨(c, r.art), hcm, ?_⟩
    rw [List.mem_filterMap]
    refine ⟨i, hi, ?_⟩
    unfold rowRecord
    obtain ⟨d, hd2, hget⟩ := dfDates_get_indexOf g i hi
    rw [hd] at hd2
    obtain rfl := Option.some.inj hd2
    simp only [hna, Bool.false_eq_true, if_false, ite_false, if_neg]
    rw [hget]
    cases r
    simp_all

/-- C4 characterisation: a finished record exists exactly for the (metric
column, valid-date row) pairs whose value cell is non-NaN and
numeric-coercible, and its value is the coerced number. -/
theorem mem_finalRecords {g : Grid} {r : Record} :
    r ∈ finalRecords g ↔
      ∃ c i, (c, r.art) ∈ metricsOf g ∧ i ∈ validIdx g ∧
        (cellAt g i 0).asDate = some r.datum ∧
        r.wochentag = wochentagMap (pdWeekday r.datum) ∧
        (cellAt g i c).isna = false ∧ (cellAt g i c).asNum = some r.wert := by
  unfold finalRecords
  rw [List.mem_filterMap]
  constructor
  · rintro ⟨rr, hrr, hmap⟩
    rw [Option.map_eq_some'] at hmap
    obtain ⟨q, hq, hrec⟩ := hmap
    obtain ⟨c, i, hcm, hi, hd, hw, hna, hwert⟩ := mem_rawRecords.mp hrr
    subst hrec
    exact ⟨c, i, hcm, hi, hd, hw, hna, by rw [← hwert]; exact hq⟩
  · rintro ⟨c, i, hcm, hi, hd, hw, hna, hnum⟩
    refine ⟨{ datum := r.datum, wochentag := r.wochentag, art := r.art,
              wert := cellAt g i c }, ?_, ?_⟩
    · exact mem_rawRecords.mpr ⟨c, i, hcm, hi, hd, hw, hna, rfl⟩
    · cases r
      simp_all

/-- The weekday table hits the canonical list on every reachable index. -/
theorem wochentagMap_mem {n : Nat} (h : n < 7) : wochentagMap n ∈ weekdayOrder := by
  interval_cases n <;> decide

/-- Every finished record carries one of the seven canonical weekday labels. -/
theorem finalRecords_wochentag_mem {g : Grid} {r : Record}
    (hr : r ∈ finalRecords g) : r.wochentag ∈ weekdayOrder := by
  obtain ⟨c, i, _, _, _, hw, _, _⟩ := mem_finalRecords.mp hr
  rw [hw]
  exact wochentagMap_mem (Nat.mod_lt _ (by norm_num))

/-- The key column of a key-preserving `filterMap` is a sublist of the index
list it was reindexed onto. -/
theorem map_fst_filterMap_sublist {β : Type} (f : String → Option (String × β))
    (l : List String) (hf : ∀ a p, f a = some p → p.1 = a) :
    ((l.filterMap f).map Prod.fst).Sublist l := by
  induction l with
  | nil => simp
  | cons x xs ih =>
    cases hfx : f x with
    | none =>
      rw [List.filterMap_cons_none hfx]
      exact ih.cons x
    | some p =>
      rw [List.filterMap_cons_some hfx]
      rw [List.map_cons, hf x p hfx]
      exact ih.cons₂ x

/-- Full behaviour of the per-metric weekday aggregate: sums are the plain
sums over the weekday groups, keys follow the canonical order, and a weekday
appears exactly when the subset has a record for it (in canonical range). -/
theorem aggWochentag_spec (sub : List Record) :
    ((aggWochentag sub).map Prod.fst).Sublist weekdayOrder ∧
    (∀ w, w ∈ (aggWochentag sub).map Prod.fst ↔
        w ∈ weekdayOrder ∧ ∃ r ∈ sub, r.wochentag = w) ∧
    (∀ w v, (w, v) ∈ aggWochentag sub →
        v = ((sub.filter fun r => r.wochentag = w).map Record.wert).sum) := by
  refine ⟨?_, ?_, ?_⟩
  · apply map_fst_filterMap_sublist
    intro a p hp
    simp only [aggWochentag] at hp
    split at hp
    · exact absurd hp (by simp)
    · exact congrArg Prod.fst (Option.some.inj hp).symm |>.symm ▸ rfl
  · intro w
    constructor
    · intro hw
      rw [List.mem_map] at hw
      obtain ⟨p, hp, hfst⟩ := hw
      unfold aggWochentag at hp
      rw [List.mem_filterMap] at hp
      obtain ⟨a, hal, ha⟩ := hp
      split at ha
      · exact absurd ha (by simp)
      · next hemp =>
        obtain rfl := Option.some.inj ha
        subst hfst
        refine ⟨hal, ?_⟩
        have hne : (sub.filter fun r => r.wochentag = a) ≠ [] := by
          intro hnil
          simp [hnil] at hemp
        obtain ⟨r, hr⟩ := List.exists_mem_of_ne_nil _ hne
        have := List.mem_filter.mp hr
        exact ⟨r, this.1, by simpa using this.2⟩
    · rintro ⟨hwo, r, hr, hrw⟩
      rw [List.mem_map]
      refine ⟨(w, ((sub.filter fun r => r.wochentag = w).map Record.wert).sum), ?_, rfl⟩
      unfold aggWochentag
      rw [List.mem_filterMap]
      refine ⟨w, hwo, ?_⟩
      have hne : ((sub.filter fun r => r.wochentag = w).map Record.wert).isEmpty = false := by
        have hrmem : r ∈ sub.filter fun r => r.wochentag = w :=
          List.mem_filter.mpr ⟨hr, by simpa using hrw⟩
        cases hl : sub.filter fun r => r.wochentag = w
        · rw [hl] at hrmem
          simp at hrmem
        · simp [hl]
      simp only [hne, Bool.false_eq_true, if_false, ite_false, if_neg]
  · intro w v hwv
    unfold aggWochentag at hwv
    rw [List.mem_filterMap] at hwv
    obtain ⟨a, _, ha⟩ := hwv
    split at ha
    · exact absurd ha (by simp)
    · obtain ⟨rfl, rfl⟩ := Prod.mk.injEq .. ▸ Option.some.inj ha
      rfl

/-- When `m` is among the selected metrics, filtering the selection-restricted
table again down to `m` gives the same rows as filtering the full record set:
the selection step cannot remove records of a selected metric. -/
theorem filter_art_collapse {g : Grid} {sel : List String} {m : String} (hm : m ∈ sel) :
    (filteredOf g sel).filter (fun r => r.art = m)
      = (finalRecords g).filter (fun r => r.art = m) := by
  unfold filteredOf
  rw [List.filter_filter]
  apply List.filter_congr
  intro r _
  by_cases h : r.art = m
  · simp [h, hm]
  · simp [h]

/-- Inversion for the figure list: an entry for metric `m` means `m` was
selected, its subset of records is non-empty, and the figure is the bar chart
of its weekday aggregate over all records named `m`. -/
theorem mem_figsOf {g : Grid} {sel : List String} {m : String} {f : Fig}
    (h : (m, f) ∈ figsOf g sel) :
    m ∈ sel ∧
    f = pxBar (aggWochentag ((finalRecords g).filter fun r => r.art = m))
          (m ++ " pro Wochentag (Summe)") m ∧
    (finalRecords g).filter (fun r => r.art = m) ≠ [] := by
  unfold figsOf at h
  rw [List.mem_filterMap] at h
  obtain ⟨m0, hm0, heq⟩ := h
  by_cases he : ((filteredOf g sel).filter fun r => r.art = m0).isEmpty
  · simp [he] at heq
  · simp only [he, Bool.false_eq_true, if_false, ite_false, if_neg,
      Option.some.injEq, Prod.mk.injEq] at heq
    obtain ⟨rfl, rfl⟩ := heq
    have hcol := filter_art_collapse (g := g) hm0
    refine ⟨hm0, by rw [← hcol], ?_⟩
    rw [← hcol]
    intro hnil
    rw [hnil] at he
    simp at he

/-- Inversion principle for a successful run: both fatal pre-checks passed and
the bundle is the assembly at the computed date range. -/
theorem runPipeline_ok_iff {g : Grid} {sel : List String} {now : String} {b : Report} :
    runPipeline g sel now = .ok b ↔
      (metricsOf g).isEmpty = false ∧ (rawRecords g).isEmpty = false ∧
      ∃ dmin dmax,
        ((finalRecords g).map Record.datum).min? = some dmin ∧
        ((finalRecords g).map Record.datum).max? = some dmax ∧
        b = mkReport g sel now dmin dmax := by
  unfold runPipeline
  by_cases h1 : (metricsOf g).isEmpty
  · simp [h1]
  · by_cases h2 : (rawRecords g).isEmpty
    · simp [h1, h2]
    · simp only [h1, h2, Bool.false_eq_true, if_false, ite_false, if_neg, true_and,
        eq_self_iff_true]
      constructor
      · intro h
        split at h
        · next dmin dmax hmin hmax =>
          exact ⟨dmin, dmax, hmin, hmax, (Except.ok.inj h).symm⟩
        · exact absurd h (by simp)
      · rintro ⟨dmin, dmax, hmin, hmax, rfl⟩
        rw [hmin, hmax]

/-! ## Claim theorems -/

/-- C1: every per-metric aggregate series a successful run builds groups that
metric's records by weekday and sums their values; its (weekday, sum) entries
appear in the canonical Mo, Di, Mi, Do, Fr, Sa, So order (a sublist of
`weekdayOrder`), and a weekday appears in the series if and only if the metric
has at least one record on it — weekdays without records are omitted, not
emitted as zero entries. -/
theorem agg_series_canonical_and_omits_empty
    (g : Grid) (sel : List String) (now : String) (b : Report) (m : String) (f : Fig)
    (hrun : runPipeline g sel now = .ok b) (hmem : (m, f) ∈ b.figs) :
    f.data = aggWochentag ((finalRecords g).filter fun r => r.art = m) ∧
    (f.data.map Prod.fst).Sublist weekdayOrder ∧
    (∀ w, w ∈ f.data.map Prod.fst ↔
        ∃ r ∈ (finalRecords g).filter (fun r => r.art = m), r.wochentag = w) ∧
    (∀ w v, (w, v) ∈ f.data →
        v = ((((finalRecords g).filter fun r => r.art = m).filter
              fun r => r.wochentag = w).map Record.wert).sum) := by
  obtain ⟨_, _, dmin, dmax, _, _, rfl⟩ := runPipeline_ok_iff.mp hrun
  have hmem2 : (m, f) ∈ figsOf g sel := hmem
  obtain ⟨hmsel, hf, hne⟩ := mem_figsOf hmem2
  subst hf
  have hspec := aggWochentag_spec ((finalRecords g).filter fun r => r.art = m)
  refine ⟨rfl, hspec.1, ?_, hspec.2.2⟩
  intro w
  rw [show (pxBar (aggWochentag ((finalRecords g).filter fun r => r.art = m))
      (m ++ " pro Wochentag (Summe)") m).data
    = aggWochentag ((finalRecords g).filter fun r => r.art = m) from rfl]
  rw [hspec.2.1 w]
  constructor
  · rintro ⟨_, hr⟩
    exact hr
  · rintro ⟨r, hr, hrw⟩
    have hmemf : r ∈ finalRecords g := (List.mem_filter.mp hr).1
    exact ⟨hrw ▸ finalRecords_wochentag_mem hmemf, r, hr, hrw⟩

/-- C2: the weekday label of every row of the date table is obtained by
applying the fixed table {0 ↦ Mo, 1 ↦ Di, 2 ↦ Mi, 3 ↦ Do, 4 ↦ Fr, 5 ↦ Sa,
6 ↦ So} to the parsed date's day-of-week index (Monday = 0); it is always one
of the seven canonical labels.  The label is a function of the date ordinal
alone — no locale, timezone or runtime configuration parameter exists in the
computation. -/
theorem weekday_label_from_fixed_table (g : Grid) (p : Nat × String)
    (hp : p ∈ dfDates g) :
    p.2 = wochentagMap (pdWeekday p.1) ∧ p.2 ∈ weekdayOrder ∧ pdWeekday p.1 < 7 ∧
    wochentagMap 0 = "Mo" ∧ wochentagMap 1 = "Di" ∧ wochentagMap 2 = "Mi" ∧
    wochentagMap 3 = "Do" ∧ wochentagMap 4 = "Fr" ∧ wochentagMap 5 = "Sa" ∧
    wochentagMap 6 = "So" := by
  unfold dfDates at hp
  rw [List.mem_filterMap] at hp
  obtain ⟨i, _, hi⟩ := hp
  rw [Option.map_eq_some'] at hi
  obtain ⟨d, _, hd⟩ := hi
  subst hd
  have h7 : pdWeekday d < 7 := Nat.mod_lt _ (by norm_num)
  exact ⟨rfl, wochentagMap_mem h7, h7, rfl, rfl, rfl, rfl, rfl, rfl, rfl⟩

/-- C3 (code bug): on a data region whose only value is non-numeric text, the
pre-coercion record list is non-empty, so the "Keine Werte gefunden" check of
line 219 passes; the numeric coercion then drops every record, and instead of
the EmptyResult error the spec requires, the run aborts with the un-handled
`AttributeError` of line 233 (`NaN.strftime`), modelled as `kpiCrash`. -/
theorem all_nonnumeric_crash_not_empty_result :
    runPipeline gBug ["A"] "01.01.2024 00:00" = .error .kpiCrash ∧
    rawRecords gBug ≠ [] ∧ finalRecords gBug = [] ∧
    RunError.kpiCrash ≠ RunError.emptyResult :=
  ⟨rfl, by decide, rfl, by decide⟩

/-- C4: a finished record exists exactly when its source row's date cell
parses, the value cell at that row and metric column is non-empty (not NaN)
and numeric-coercible; its value is precisely the coerced number (a finite
rational — never a substituted zero or default), and its date and weekday are
those of its source row. -/
theorem final_record_existence_iff (g : Grid) (r : Record) :
    r ∈ finalRecords g ↔
      ∃ c i, (c, r.art) ∈ metricsOf g ∧ i ∈ validIdx g ∧
        (cellAt g i 0).asDate = some r.datum ∧
        r.wochentag = wochentagMap (pdWeekday r.datum) ∧
        (cellAt g i c).isna = false ∧ (cellAt g i c).asNum = some r.wert :=
  mem_finalRecords

/-- C5: the KPI dict of a successful run is computed over the full, unfiltered
record set — range start `min(Datum)`, range end `max(Datum)` (both rendered
as day.month.year by `kpisOf` via `formatDMY`), the distinct metric-name count
and the total record count — and therefore is identical for every caller
metric selection: any other selection also succeeds and yields the same
KPIs. -/
theorem kpis_independent_of_selection (g : Grid) (sel : List String) (now : String)
    (b : Report) (h : runPipeline g sel now = .ok b) :
    (∀ sel2, ∃ b2, runPipeline g sel2 now = .ok b2 ∧ b2.kpis = b.kpis) ∧
    ∃ dmin dmax,
      ((finalRecords g).map Record.datum).min? = some dmin ∧
      ((finalRecords g).map Record.datum).max? = some dmax ∧
      b.kpis = kpisOf g dmin dmax := by
  obtain ⟨hm, hraw, dmin, dmax, hmin, hmax, rfl⟩ := runPipeline_ok_iff.mp h
  refine ⟨?_, dmin, dmax, hmin, hmax, rfl⟩
  intro sel2
  exact ⟨mkReport g sel2 now dmin dmax,
    runPipeline_ok_iff.mpr ⟨hm, hraw, dmin, dmax, hmin, hmax, rfl⟩, rfl⟩

/-- C6: when the header scan finds no metric column — in particular when every
header cell right of the date column is empty after trimming — the run stops
with the fatal NoMetricsFound condition ("Keine Auswertungsarten in Zeile 2
gefunden") and produces no report. -/
theorem no_metrics_fatal (g : Grid) (sel : List String) (now : String)
    (h : metricsOf g = []) : runPipeline g sel now = .error .noMetrics := by
  unfold runPipeline
  simp [h]

/-- C7: the report assembly is deterministic and idempotent modulo the
embedded generation timestamp: for fixed KPIs, chart fragments and table, the
HTML documents of two invocations differ exactly in the timestamp interpolated
between a shared prefix and a shared suffix (so equal clocks give
byte-identical output), and two full pipeline runs on the same grid and
selection agree on every bundle component except that document. -/
theorem report_deterministic_mod_timestamp (title : String)
    (kpis chartsHtml : List (String × String)) (tableDf : List Record)
    (g : Grid) (sel : List String) (now1 now2 : String) :
    (∃ pre post,
        buildHtmlReport title kpis chartsHtml tableDf now1 = pre ++ now1 ++ post ∧
        buildHtmlReport title kpis chartsHtml tableDf now2 = pre ++ now2 ++ post) ∧
    Except.map reportSansTime (runPipeline g sel now1)
      = Except.map reportSansTime (runPipeline g sel now2) := by
  constructor
  · refine ⟨htmlPre title,
      htmlMid kpis chartsHtml ++ (dfToHtml (previewTable tableDf) ++ htmlSuffix),
      ?_, ?_⟩ <;>
    · show htmlPre title ++ _ ++ htmlMid kpis chartsHtml
          ++ dfToHtml (previewTable tableDf) ++ htmlSuffix = _
      rw [String.append_assoc, String.append_assoc]
  · unfold runPipeline
    by_cases h1 : (metricsOf g).isEmpty
    · simp [h1]
    · by_cases h2 : (rawRecords g).isEmpty
      · simp [h1, h2]
      · simp only [h1, h2, Bool.false_eq_true, if_false, ite_false, if_neg]
        cases hmin : ((finalRecords g).map Record.datum).min? with
        | none => rfl
        | some dmin =>
          cases hmax : ((finalRecords g).map Record.datum).max? with
          | none => rfl
          | some dmax =>
            have hsame : reportSansTime (mkReport g sel now1 dmin dmax)
                = reportSansTime (mkReport g sel now2 dmin dmax) := by
              simp only [reportSansTime, mkReport_kpis, mkReport_figs,
                mkReport_chartsHtml, mkReport_tableDf]
            show (Except.ok (reportSansTime (mkReport g sel now1 dmin dmax))
                : Except RunError _)
              = Except.ok (reportSansTime (mkReport g sel now2 dmin dmax))
            exact congrArg Except.ok hsame

/-- C8: the preview table embedded in the report never exceeds 200 rows; a
longer input is truncated to exactly its first 200 rows in the caller-provided
order, a table of at most 200 rows is passed through unchanged, and the
document embeds the rendering of exactly this truncated table. -/
theorem preview_capped_at_200 (tbl : List Record) :
    (previewTable tbl).length ≤ 200 ∧
    (200 < tbl.length → previewTable tbl = tbl.take 200) ∧
    (tbl.length ≤ 200 → previewTable tbl = tbl) ∧
    ∀ title kpis chartsHtml now, ∃ pre post,
      buildHtmlReport title kpis chartsHtml tbl now
        = pre ++ dfToHtml (previewTable tbl) ++ post := by
  refine ⟨?_, ?_, ?_, ?_⟩
  · unfold previewTable
    split
    · simp
    · omega
  · intro h
    unfold previewTable
    rw [if_pos (by omega)]
  · intro h
    unfold previewTable
    rw [if_neg (by omega)]
  · intro title kpis chartsHtml now
    exact ⟨htmlPre title ++ now ++ htmlMid kpis chartsHtml, htmlSuffix, rfl⟩

/-- C9: two distinct columns whose header cells strip to the same non-empty
name are both retained (the metric map is keyed by column index), every
non-NaN value from either column is emitted as a record under the shared
name, the shared name contributes at most one to the distinct-metric KPI
(`nunique` counts it once), and a successful run builds a single aggregate
series for it covering all records of that name — the duplicate columns are
merged into one metric. -/
theorem duplicate_headers_merge_policy (g : Grid) (c1 c2 : Nat) (s : String)
    (hr1 : 1 ≤ c1) (hc1 : c1 < ncols g) (hna1 : (cellAt g 1 c1).isna = false)
    (hs1 : (cellAt g 1 c1).strStrip = s)
    (hr2 : 1 ≤ c2) (hc2 : c2 < ncols g) (hna2 : (cellAt g 1 c2).isna = false)
    (hs2 : (cellAt g 1 c2).strStrip = s)
    (hne : c1 ≠ c2) (hs : s ≠ "") :
    (c1, s) ∈ metricsOf g ∧ (c2, s) ∈ metricsOf g ∧
    (∀ i ∈ validIdx g, ∀ c, (c = c1 ∨ c = c2) → (cellAt g i c).isna = false →
      ∀ d, (cellAt g i 0).asDate = some d →
        ({ datum := d, wochentag := wochentagMap (pdWeekday d), art := s,
           wert := cellAt g i c } : RawRecord) ∈ rawRecords g) ∧
    ((finalRecords g).map Record.art).dedup.count s ≤ 1 ∧
    (∀ sel now b f, runPipeline g sel now = .ok b → (s, f) ∈ b.figs →
      f.data = aggWochentag ((finalRecords g).filter fun r => r.art = s)) := by
  have hm1 : (c1, s) ∈ metricsOf g := mem_metricsOf.mpr ⟨hr1, hc1, hna1, hs1, hs⟩
  have hm2 : (c2, s) ∈ metricsOf g := mem_metricsOf.mpr ⟨hr2, hc2, hna2, hs2, hs⟩
  refine ⟨hm1, hm2, ?_, ?_, ?_⟩
  · intro i hi c hc hcna d hd
    rcases hc with rfl | rfl
    · exact mem_rawRecords.mpr ⟨c, i, hm1, hi, hd, rfl, hcna, rfl⟩
    · exact mem_rawRecords.mpr ⟨c, i, hm2, hi, hd, rfl, hcna, rfl⟩
  · rw [List.count_dedup]
    split <;> omega
  · intro sel now b f hrun hmem
    obtain ⟨_, _, dmin, dmax, _, _, rfl⟩ := runPipeline_ok_iff.mp hrun
    have hmem2 : (s, f) ∈ figsOf g sel := hmem
    obtain ⟨_, hf, _⟩ := mem_figsOf hmem2
    rw [hf]
    rfl

/-- C10: the positional re-alignment is correct — for every metric column and
every row index that survived date validation, looking the row up at
`list(valid_idx).index(i)` inside the filtered date table returns exactly that
row's parsed date and derived weekday, and the record emitted from the (row,
column) pair carries exactly these. -/
theorem row_alignment_correct (g : Grid) (i c : Nat) (name : String) (d : Nat)
    (hm : (c, name) ∈ metricsOf g) (hi : i ∈ validIdx g)
    (hd : (cellAt g i 0).asDate = some d) (hna : (cellAt g i c).isna = false) :
    (dfDates g).get? ((validIdx g).indexOf i) = some (d, wochentagMap (pdWeekday d)) ∧
    ({ datum := d, wochentag := wochentagMap (pdWeekday d), art := name,
       wert := cellAt g i c } : RawRecord) ∈ rawRecords g := by
  obtain ⟨d2, hd2, hget⟩ := dfDates_get_indexOf g i hi
  rw [hd] at hd2
  obtain rfl := Option.some.inj hd2
  exact ⟨hget, mem_rawRecords.mpr ⟨c, i, hm, hi, hd, rfl, hna, rfl⟩⟩

/-! ## Witnesses -/

/-- Witness for C1 at the concrete grid `gW` with metric "A". -/
theorem agg_series_canonical_and_omits_empty_witness :
    (figW.data.map Prod.fst).Sublist weekdayOrder ∧
    figW.data = aggWochentag ((finalRecords gW).filter fun r => r.art = "A") := by
  have hmem : ("A", figW) ∈ (mkReport gW ["A"] "t" 19723 19723).figs := by
    rw [mkReport_figs, show figsOf gW ["A"] = [("A", figW)] from rfl]
    exact List.mem_singleton.mpr rfl
  have h := agg_series_canonical_and_omits_empty gW ["A"] "t"
    (mkReport gW ["A"] "t" 19723 19723) "A" figW rfl hmem
  exact ⟨h.2.1, h.1⟩

/-- Witness for C2 at the concrete grid `gW`: 2024-01-01 (ordinal 19723) is a
Monday. -/
theorem weekday_label_from_fixed_table_witness :
    ("Mo" : String) = wochentagMap (pdWeekday 19723) ∧ ("Mo" : String) ∈ weekdayOrder := by
  have h := weekday_label_from_fixed_table gW (19723, "Mo") (by decide)
  exact ⟨h.1, h.2.1⟩

/-- Witness for C5 at the concrete grid `gW`: the empty selection yields the
same KPIs as selecting "A". -/
theorem kpis_independent_of_selection_witness :
    runPipeline gW [] "t" = .ok (mkReport gW [] "t" 19723 19723) ∧
    (mkReport gW [] "t" 19723 19723).kpis = (mkReport gW ["A"] "t" 19723 19723).kpis := by
  obtain ⟨b2, hb2, hk⟩ := (kpis_independent_of_selection gW ["A"] "t"
    (mkReport gW ["A"] "t" 19723 19723) rfl).1 []
  have hrun0 : runPipeline gW [] "t" = .ok (mkReport gW [] "t" 19723 19723) := rfl
  have hb : b2 = mkReport gW [] "t" 19723 19723 :=
    Except.ok.inj (hb2.symm.trans hrun0)
  subst hb
  exact ⟨hb2, hk⟩

/-- Witness for C6 at the concrete grid `gEmptyHdr`, whose header row is
all-NaN or empty after trimming. -/
theorem no_metrics_fatal_witness :
    runPipeline gEmptyHdr [] "t" = .error .noMetrics :=
  no_metrics_fatal gEmptyHdr [] "t" (by decide)

/-- Witness for C8 at a concrete 201-row table: the preview keeps exactly the
first 200 rows. -/
theorem preview_capped_at_200_witness :
    (previewTable tblW).length ≤ 200 ∧ previewTable tblW = tblW.take 200 := by
  have h := preview_capped_at_200 tblW
  exact ⟨h.1, h.2.1 (by norm_num [tblW])⟩

/-- Witness for C9 at the concrete grid `gDup`, whose columns 1 and 2 both
carry the header name "A". -/
theorem duplicate_headers_merge_policy_witness :
    (1, "A") ∈ metricsOf gDup ∧ (2, "A") ∈ metricsOf gDup ∧
    ((finalRecords gDup).map Record.art).dedup.count "A" ≤ 1 := by
  have h := duplicate_headers_merge_policy gDup 1 2 "A"
    (by decide) (by decide) rfl rfl (by decide) (by decide) rfl rfl
    (by decide) (by decide)
  exact ⟨h.1, h.2.1, h.2.2.2.1⟩

/-- Witness for C10 at the concrete grid `gW`: row 2 is the single valid row,
its positional lookup yields (19723, Mo), and the emitted record carries
exactly these. -/
theorem row_alignment_correct_witness :
    (dfDates gW).get? ((validIdx gW).indexOf 2) = some (19723, "Mo") ∧
    ({ datum := 19723, wochentag := "Mo", art := "A", wert := numCell 5 } : RawRecord)
      ∈ rawRecords gW := by
  have h := row_alignment_correct gW 2 1 "A" 19723 (by decide) (by decide) rfl rfl
  exact ⟨h.1, h.2⟩

end Kennzahlen
